import Mathlib

/-!
Verification of the SmartSearch UI library (SmartSearchUI class and theme
modules) against its natural-language specification.

The JavaScript source is shallowly embedded: JS values become an inductive
type, JS objects become association lists, the DOM and the external search
client are abstracted to explicit state records and event traces, and
platform functions (date parsing, locale formatting) become explicit
function parameters.
-/

set_option autoImplicit false

namespace SmartSearch

/-- Model of a JavaScript value, as far as the library manipulates them:
undefined, null, booleans, numbers (the library only compares them to
integers, so Int suffices), strings, arrays, plain objects (ordered
association lists of own enumerable properties), and opaque function
values identified by a tag. -/
inductive JSValue where
  | vUndefined : JSValue
  | vNull : JSValue
  | vBool : Bool → JSValue
  | vNum : Int → JSValue
  | vStr : String → JSValue
  | vArr : List JSValue → JSValue
  | vObj : List (String × JSValue) → JSValue
  | vFunc : Nat → JSValue
deriving Repr

/-- Own enumerable properties of a JS object, in insertion order. -/
abbrev Fields := List (String × JSValue)

/-- Property read on an object: the first binding of the key, if any
(JS objects have unique keys; on lists with duplicate keys this takes the
first, which is what all theorems assume via Nodup hypotheses). -/
def lookupField : Fields → String → Option JSValue
  | [], _ => none
  | (k, v) :: rest, key => if k = key then some v else lookupField rest key

/-- Property write on an object (the effect of Object.assign with a
single-key source): overwrite the existing binding in place, or append a
new binding at the end. -/
def setField : Fields → String → JSValue → Fields
  | [], key, value => [(key, value)]
  | (k, v) :: rest, key, value =>
    if k = key then (k, value) :: rest else (k, v) :: setField rest key value

/-- The source helper _isObject: truthy, typeof object, and not an array;
exactly the plain objects of the model (null and arrays are excluded,
functions have typeof function). -/
def isObject : JSValue → Bool
  | .vObj _ => true
  | _ => false

/-- Own enumerable properties produced by Object.assign(\x7b\x7d, target)
for a possibly non-object target: objects contribute their fields, arrays
contribute their index-keyed elements, strings contribute their indexed
characters, every other primitive contributes nothing. -/
def objAssignEmpty : JSValue → Fields
  | .vObj fs => fs
  | .vArr xs => xs.enum.map (fun p => (toString p.1, p.2))
  | .vStr s => s.toList.enum.map (fun p => (toString p.1, JSValue.vStr p.2.toString))
  | _ => []

mutual

/-- The source _deepMerge(target, source): copy target, then for each key
of source, recurse when the source value is an object and the key already
exists in target (whatever the target value is), otherwise assign the
source value; when either argument is not a plain object the source keys
are not visited at all and the result is the Object.assign copy of
target. -/
def deepMerge : JSValue → JSValue → JSValue
  | JSValue.vObj tfs, JSValue.vObj sfs => JSValue.vObj (mergeFields tfs tfs sfs)
  | t, _ => JSValue.vObj (objAssignEmpty t)
termination_by _t s => sizeOf s
decreasing_by all_goals simp_wf

/-- The key loop of _deepMerge: tfs is the original target object, out the
output being built (initially the copy of target), and the third argument
the remaining source keys. -/
def mergeFields (tfs : Fields) (out : Fields) : Fields → Fields
  | [] => out
  | (k, v) :: rest =>
    let out2 :=
      if isObject v then
        match lookupField tfs k with
        | none => setField out k v
        | some tv => setField out k (deepMerge tv v)
      else setField out k v
    mergeFields tfs out2 rest
termination_by sfs => sizeOf sfs
decreasing_by all_goals simp_wf <;> omega

end

/-- What one source key contributes to the merged object: when the source
value is an object and the key exists in the target, the recursive merge
with the target value (whatever its type); otherwise the source value
itself. Declarative companion of the loop body of mergeFields. -/
def procField (tfs : Fields) (k : String) (sv : JSValue) : JSValue :=
  if isObject sv then
    match lookupField tfs k with
    | none => sv
    | some tv => deepMerge tv sv
  else sv

/-- The fields of the defaults object of _mergeConfig, verbatim from the
source: project specific values are null sentinels, generic values are
filled in. -/
def defaultsConfigFields : Fields :=
  [
    ("server", .vObj [
      ("defaultURL", .vNull),
      ("defaultPreparedSearch", .vNull),
      ("localStorageKeys", .vObj [
        ("server", .vStr "smartsearch-server"),
        ("preparedSearch", .vStr "smartsearch-prepared-search")])]),
    ("facets", .vObj [("displayNames", .vObj [])]),
    ("dateFilter", .vObj [
      ("enabled", .vBool true),
      ("fieldName", .vNull),
      ("solrFilterParam", .vStr "fq")]),
    ("resultFields", .vObj [
      ("title", .vObj [("field", .vNull), ("fallback", .vStr "Untitled")]),
      ("description", .vObj [
        ("fields", .vArr []),
        ("fallback", .vStr "No description available"),
        ("useHighlighting", .vBool true)]),
      ("link", .vObj [("fields", .vArr []), ("fallback", .vStr "#")]),
      ("date", .vObj [
        ("field", .vNull),
        ("format", .vObj [
          ("year", .vStr "numeric"),
          ("month", .vStr "short"),
          ("day", .vStr "numeric")]),
        ("locale", .vStr "en"),
        ("fallback", .vStr "No date")]),
      ("language", .vObj [("field", .vNull), ("default", .vStr "EN")])]),
    ("features", .vObj [
      ("settingsModal", .vBool true),
      ("fieldInspector", .vBool true),
      ("dateFilter", .vBool true),
      ("instantFiltering", .vBool true),
      ("didYouMean", .vBool true),
      ("smoothScrolling", .vBool true)]),
    ("ui", .vObj [
      ("resultsPerPage", .vNum 10),
      ("maxPaginationButtons", .vNum 5),
      ("showResultCount", .vBool true),
      ("emptyStateMessage", .vStr "Enter a search query to get started"),
      ("emptyStateIcon", .vStr "🔍"),
      ("errorStateIcon", .vStr "⚠️")]),
    ("hooks", .vObj [
      ("beforeSearch", .vNull),
      ("afterSearch", .vNull),
      ("onResultClick", .vNull),
      ("beforeRender", .vNull),
      ("afterRender", .vNull)]),
    ("resultTemplate", .vNull)]

/-- The defaults object of _mergeConfig. -/
def defaultsConfig : JSValue :=
  JSValue.vObj defaultsConfigFields

/-- The source _mergeConfig: deep merge of the user configuration over the
defaults. -/
def mergeConfig (userConfig : JSValue) : JSValue :=
  deepMerge defaultsConfig userConfig

/-- The feature-flag group of the defaults, used in the C1 witness for the
partially supplied nested group scenario of the spec. -/
def featuresDefaults : Fields :=
  [("settingsModal", .vBool true),
   ("fieldInspector", .vBool true),
   ("dateFilter", .vBool true),
   ("instantFiltering", .vBool true),
   ("didYouMean", .vBool true),
   ("smoothScrolling", .vBool true)]

/-- JS truthiness: undefined, null, false, zero and the empty string are
falsy, everything else (arrays and objects included, even empty ones) is
truthy. -/
def jsTruthy : JSValue → Bool
  | .vUndefined => false
  | .vNull => false
  | .vBool b => b
  | .vNum n => n != 0
  | .vStr s => s != ""
  | .vArr _ => true
  | .vObj _ => true
  | .vFunc _ => true

/-- Total JS property read on a non-nullish base: objects yield the bound
value or undefined, arrays and strings expose length, every other
primitive boxes to an object with no relevant own properties. Function
properties are not modelled and read as undefined. -/
def jsGetD : JSValue → String → JSValue
  | .vObj fs, k => (lookupField fs k).getD .vUndefined
  | .vArr xs, k => if k = "length" then .vNum xs.length else .vUndefined
  | .vStr s, k => if k = "length" then .vNum s.length else .vUndefined
  | _, _ => .vUndefined

/-- JS property read as the source performs it: reading a property of null
or undefined throws a TypeError, modelled as the error case. -/
def jsGetE : JSValue → String → Except Unit JSValue
  | .vNull, _ => .error ()
  | .vUndefined, _ => .error ()
  | v, k => .ok (jsGetD v k)

/-- Strict equality to the number literal 0, as used by the length === 0
checks of _validateConfig. -/
def isNumZero : JSValue → Bool
  | .vNum 0 => true
  | _ => false

/-- The exact path label the source pushes for a missing date filter field
name. -/
def dateFilterFieldNamePath : String :=
  "dateFilter.fieldName (required when dateFilter.enabled = true)"

/-- The source _validateConfig: runs the fixed checklist in order,
accumulating the label of every failing check, then returns the whole
list; a TypeError raised by a property read on a nullish group surfaces
as the error case. -/
def validateConfig (config : JSValue) : Except Unit (List String) := do
  let server ← jsGetE config "server"
  let url ← jsGetE server "defaultURL"
  let r1 : List String := if jsTruthy url then [] else ["server.defaultURL"]
  let prepared ← jsGetE server "defaultPreparedSearch"
  let r2 : List String :=
    if jsTruthy prepared then [] else ["server.defaultPreparedSearch"]
  let resultFields ← jsGetE config "resultFields"
  let title ← jsGetE resultFields "title"
  let titleField ← jsGetE title "field"
  let r3 : List String :=
    if jsTruthy titleField then [] else ["resultFields.title.field"]
  let description ← jsGetE resultFields "description"
  let descFields ← jsGetE description "fields"
  let r4 : List String ←
    if jsTruthy descFields then do
      let len ← jsGetE descFields "length"
      pure (if isNumZero len then ["resultFields.description.fields"] else [])
    else pure ["resultFields.description.fields"]
  let link ← jsGetE resultFields "link"
  let linkFields ← jsGetE link "fields"
  let r5 : List String ←
    if jsTruthy linkFields then do
      let len ← jsGetE linkFields "length"
      pure (if isNumZero len then ["resultFields.link.fields"] else [])
    else pure ["resultFields.link.fields"]
  let dateFilter ← jsGetE config "dateFilter"
  let enabled ← jsGetE dateFilter "enabled"
  let r6 : List String ←
    if jsTruthy enabled then do
      let fieldName ← jsGetE dateFilter "fieldName"
      pure (if jsTruthy fieldName then [] else [dateFilterFieldNamePath])
    else pure []
  pure (r1 ++ r2 ++ r3 ++ r4 ++ r5 ++ r6)

/-- The constructor behavior downstream of _validateConfig: a nonempty
missing list becomes one aggregated Error whose message enumerates every
missing path; an empty list raises nothing. -/
def validationError (missing : List String) : Option String :=
  if missing.isEmpty then none
  else some ("SmartSearchUI: Missing required configuration:\n  - "
    ++ String.intercalate "\n  - " missing
    ++ "\n\nPlease provide these values in config/project.config.js")

/-- Declarative nested path read, used to state the checklist
independently of the sequential code of _validateConfig. -/
def pathVal (c : JSValue) : List String → JSValue
  | [] => c
  | k :: rest => pathVal (jsGetD c k) rest

/-- The fixed checklist of required leaves, as path label and
leaf-is-missing condition pairs, in source order. -/
def requiredLeafMissing (config : JSValue) : List (String × Bool) :=
  [("server.defaultURL",
     !jsTruthy (pathVal config ["server", "defaultURL"])),
   ("server.defaultPreparedSearch",
     !jsTruthy (pathVal config ["server", "defaultPreparedSearch"])),
   ("resultFields.title.field",
     !jsTruthy (pathVal config ["resultFields", "title", "field"])),
   ("resultFields.description.fields",
     !jsTruthy (pathVal config ["resultFields", "description", "fields"])
       || isNumZero (jsGetD
            (pathVal config ["resultFields", "description", "fields"]) "length")),
   ("resultFields.link.fields",
     !jsTruthy (pathVal config ["resultFields", "link", "fields"])
       || isNumZero (jsGetD
            (pathVal config ["resultFields", "link", "fields"]) "length")),
   (dateFilterFieldNamePath,
     jsTruthy (pathVal config ["dateFilter", "enabled"])
       && !jsTruthy (pathVal config ["dateFilter", "fieldName"]))]

/-- Concrete configuration for the C2 witness: prepared search, field
lists and date field are present, but the server URL is null and the
title field is null, so exactly two checklist paths are missing. -/
def sampleMissingConfig : JSValue :=
  JSValue.vObj [
    ("server", .vObj [
      ("defaultURL", .vNull),
      ("defaultPreparedSearch", .vStr "MyIndex")]),
    ("resultFields", .vObj [
      ("title", .vObj [("field", .vNull)]),
      ("description", .vObj [("fields", .vArr [.vStr "content"])]),
      ("link", .vObj [("fields", .vArr [.vStr "url"])])]),
    ("dateFilter", .vObj [
      ("enabled", .vBool true),
      ("fieldName", .vStr "meta_date")])]

/-- Coercion of a JS value to a property key string, as JS performs when a
value is used to index an object. Only strings and integers are used by
the library; the other cases follow the standard ToString coercions,
with function sources abstracted. -/
def jsToPropKey : JSValue → String
  | .vStr s => s
  | .vNum n => toString n
  | .vBool b => if b then "true" else "false"
  | .vNull => "null"
  | .vUndefined => "undefined"
  | .vArr xs => String.intercalate "," (xs.map (fun _ => ""))
  | .vObj _ => "[object Object]"
  | .vFunc _ => "function"

/-- The Array.isArray(value) ? value[0] : value reduction of getField:
arrays reduce to their first element, undefined when empty; anything else
passes through. -/
def arrayFirstOrSelf : JSValue → JSValue
  | .vArr xs => xs.headD .vUndefined
  | v => v

/-- The fieldConfig.fallback || null expression of getField: the
configured fallback when truthy, else null. -/
def fallbackOrNull (fieldConfig : JSValue) : JSValue :=
  let fb := jsGetD fieldConfig "fallback"
  if jsTruthy fb then fb else JSValue.vNull

/-- The candidate loop of getField: read each candidate physical field off
the result in order and return the reduced value of the first one whose
value is truthy. -/
def getFieldScan (result : Fields) : List JSValue → Option JSValue
  | [] => none
  | f :: rest =>
    let value := (lookupField result (jsToPropKey f)).getD .vUndefined
    if jsTruthy value then some (arrayFirstOrSelf value) else getFieldScan result rest

/-- The source getField(result, fieldName): resolve the field
configuration from resultFields; null when it is falsy; with a truthy
single field entry, the reduced result value when truthy else the
fallback; with a truthy fields entry, the candidate loop over the list
(or over the characters when the entry is a string, which is how for..of
behaves; iterating any other truthy non-iterable throws, modelled as the
error case); null otherwise. -/
def getField (resultFields result : Fields) (fieldName : String) :
    Except Unit JSValue :=
  let fieldConfig := (lookupField resultFields fieldName).getD .vUndefined
  if !jsTruthy fieldConfig then .ok .vNull
  else
    let single := jsGetD fieldConfig "field"
    if jsTruthy single then
      let value := (lookupField result (jsToPropKey single)).getD .vUndefined
      if jsTruthy value then .ok (arrayFirstOrSelf value)
      else .ok (fallbackOrNull fieldConfig)
    else
      let fieldsVal := jsGetD fieldConfig "fields"
      if jsTruthy fieldsVal then
        match fieldsVal with
        | .vArr xs =>
          match getFieldScan result xs with
          | some v => .ok v
          | none => .ok (fallbackOrNull fieldConfig)
        | .vStr s =>
          match getFieldScan result (s.toList.map (fun c => JSValue.vStr c.toString)) with
          | some v => .ok v
          | none => .ok (fallbackOrNull fieldConfig)
        | _ => .error ()
      else .ok .vNull

/-- One observable call on the external search client or the facet, in
program order. -/
inductive ClientEvent where
  | setCustom (key value : String)
  | deleteCustom (key : String)
  | facetFilterCall (values : List String)
deriving Repr, DecidableEq

/-- The dateFilter group of the configuration as consumed by filter. -/
structure DateFilterConfig where
  enabled : Bool
  fieldName : String
  solrFilterParam : String
deriving Repr, DecidableEq

/-- Truthiness of an optional DOM input value: the element exists and its
value is a nonempty string. -/
def strSet : Option String → Bool
  | some s => s != ""
  | none => false

/-- The source filter(facet, reset) as a trace of external calls: gather
the checked facet values (emptied on reset); when date filtering is
enabled, either set the named custom parameter to the range query
fieldName:[startISO TO endISO] — a set boundary parsed by the platform
formatter toISO after appending the midnight or end-of-day suffix, an
unset boundary becoming the * wildcard — or delete the parameter when
neither boundary is set; then invoke the facet filter with the gathered
values. -/
def filterClientEvents (cfg : DateFilterConfig) (toISO : String → String)
    (checkedValues : List String) (reset : Bool)
    (startDateValue endDateValue : Option String) : List ClientEvent :=
  let values := if reset then [] else checkedValues
  let dateEvents :=
    if cfg.enabled then
      if strSet startDateValue || strSet endDateValue then
        let startISO := if strSet startDateValue then
            toISO (startDateValue.getD "" ++ "T00:00:00Z") else "*"
        let endISO := if strSet endDateValue then
            toISO (endDateValue.getD "" ++ "T23:59:59Z") else "*"
        [ClientEvent.setCustom cfg.solrFilterParam
          (cfg.fieldName ++ ":[" ++ startISO ++ " TO " ++ endISO ++ "]")]
      else [ClientEvent.deleteCustom cfg.solrFilterParam]
    else []
  dateEvents ++ [ClientEvent.facetFilterCall values]

/-- The resolved date field value of formatDate: the configured field read
off the result, undefined when absent. -/
def dateFieldValue (dateConfig result : Fields) : JSValue :=
  (lookupField result
    (jsToPropKey (jsGetD (JSValue.vObj dateConfig) "field"))).getD .vUndefined

/-- The source formatDate(result): the configured fallback when the
resolved date value is falsy; otherwise
new Date(value).toLocaleDateString(locale, format), with parseDate
modelling the platform date parse (none meaning an Invalid Date) and
formatTimestamp modelling toLocaleDateString on a valid time value,
which may throw a RangeError for invalid locale or format options (the
error case, caught by the source and turned into the fallback). Per
ECMA-402, toLocaleDateString on an Invalid Date returns the string
Invalid Date without throwing. The embedding is a total function: the
source never throws. -/
def formatDate (dateConfig result : Fields)
    (parseDate : JSValue → Option Int)
    (formatTimestamp : Int → Except Unit String) : JSValue :=
  let dateValue := dateFieldValue dateConfig result
  if !jsTruthy dateValue then jsGetD (JSValue.vObj dateConfig) "fallback"
  else
    match parseDate dateValue with
    | none => JSValue.vStr "Invalid Date"
    | some t =>
      match formatTimestamp t with
      | .ok s => JSValue.vStr s
      | .error _ => jsGetD (JSValue.vObj dateConfig) "fallback"

/-- Generic first-binding lookup in a string-keyed association list, used
for the theme registry. -/
def lookupKey {α : Type} : List (String × α) → String → Option α
  | [], _ => none
  | (k, v) :: rest, key => if k = key then some v else lookupKey rest key

/-- One lifecycle hook invocation recorded on the log. -/
inductive HookEvent where
  | initHook (themeId : String)
  | destroyHook (themeId : String)
deriving Repr, DecidableEq

/-- A theme descriptor as the loader consumes it: the optional stylesheet
file, whether the init and destroy lifecycle hooks are present, and
whether the renderFacet and renderResultCard component overrides are
supplied. -/
structure Theme where
  cssFile : Option String
  hasInit : Bool
  hasDestroy : Bool
  hasRenderFacet : Bool
  hasRenderResultCard : Bool
deriving Repr, DecidableEq

/-- A facet as far as theme switching and rendering identity go. -/
structure Facet where
  name : String
deriving Repr, DecidableEq

/-- A result page: an identity, its facets and its result ids. -/
structure Page where
  pid : Nat
  facets : List Facet
  results : List Nat
deriving Repr, DecidableEq

/-- One rendered facet block: which renderer produced its markup (the id
of the overriding theme, none for the built-in fallback), and the page
and facet it was rendered from. -/
structure RenderedFacet where
  tag : Option String
  pid : Nat
  facetName : String
deriving Repr, DecidableEq

/-- One rendered result card: producer tag, source page, result id. -/
structure RenderedResult where
  tag : Option String
  pid : Nat
  resultId : Nat
deriving Repr, DecidableEq

/-- The mutable state of a SmartSearchUI instance together with the parts
of the document it manipulates: the theme registry, the configured
localStorage theme key, the active theme bookkeeping, the stylesheet
links tracked by the instance and those present in the document head
(data-theme id and href pairs), the body class list, the hook invocation
and console warning logs, the persisted theme id, whether the facets
container exists in the document and whether the instance holds it, the
rendered facet and result containers, and the held current result
page. -/
structure UIState where
  registry : List (String × Theme)
  themeLocalStorageKey : Option String
  currentTheme : Option Theme
  currentThemeId : Option String
  loadedThemeCSS : List (String × String)
  headLinks : List (String × String)
  bodyClasses : List String
  hookLog : List HookEvent
  warnLog : List String
  localStorageTheme : Option String
  facetContainerInDOM : Bool
  facetContainer : Bool
  facetItems : List RenderedFacet
  resultItems : List RenderedResult
  currentPage : Option Page
deriving Repr, DecidableEq

/-- classList.add: a class list is a set, adding a present class is a
no-op. -/
def addClass (cs : List String) (c : String) : List String :=
  if c ∈ cs then cs else cs ++ [c]

/-- classList.remove: drops every occurrence of the class. -/
def removeClass (cs : List String) (c : String) : List String :=
  cs.filter (fun x => x != c)

/-- removeChild applied to each tracked stylesheet link in order. -/
def removeLinks (head : List (String × String)) :
    List (String × String) → List (String × String)
  | [] => head
  | l :: rest => removeLinks (head.erase l) rest

/-- The source _loadThemeCSS(cssFile, themeId): skip when a link with that
data-theme attribute is already in the document, otherwise append the
link to the document head and record it in the instance bookkeeping. -/
def loadThemeCSS (s : UIState) (cssFile themeId : String) : UIState :=
  if s.headLinks.any (fun l => l.1 == themeId) then s
  else { s with headLinks := s.headLinks ++ [(themeId, cssFile)],
                loadedThemeCSS := s.loadedThemeCSS ++ [(themeId, cssFile)] }

/-- The source _applyThemeClass(themeId): add the theme marker class to
the body, then run the activation hook of the current theme when present.
The document body is modelled as always available. -/
def applyThemeClass (s : UIState) (themeId : String) : UIState :=
  let s1 := { s with bodyClasses := addClass s.bodyClasses ("theme-" ++ themeId) }
  match s1.currentTheme with
  | some t =>
    if t.hasInit then
      { s1 with hookLog := s1.hookLog ++ [HookEvent.initHook themeId] }
    else s1
  | none => s1

/-- The source _unloadTheme(): nothing without an active theme; otherwise
run the deactivation hook when present (logged under the current theme
id), remove the marker class, remove every stylesheet link this instance
added, and clear all bookkeeping. -/
def unloadTheme (s : UIState) : UIState :=
  match s.currentTheme with
  | none => s
  | some t =>
    let s1 := if t.hasDestroy then
        { s with hookLog := s.hookLog ++
            [HookEvent.destroyHook (s.currentThemeId.getD "")] }
      else s
    let s2 := match s1.currentThemeId with
      | some id =>
        { s1 with bodyClasses := removeClass s1.bodyClasses ("theme-" ++ id) }
      | none => s1
    let s3 := { s2 with headLinks := removeLinks s2.headLinks s2.loadedThemeCSS,
                        loadedThemeCSS := [] }
    { s3 with currentTheme := none, currentThemeId := none }

/-- The source _loadTheme(themeId): an id not in the registry logs a
warning and changes nothing else; otherwise unload the active theme if
there is one, attach the stylesheet when the descriptor names one, store
the theme references, and apply the marker class, which also runs the
activation hook. -/
def loadTheme (s : UIState) (themeId : String) : UIState :=
  match lookupKey s.registry themeId with
  | none => { s with warnLog := s.warnLog ++
      ["Theme not found, using default: " ++ themeId] }
  | some theme =>
    let s1 := if s.currentTheme.isSome then unloadTheme s else s
    let s2 := match theme.cssFile with
      | some css => loadThemeCSS s1 css themeId
      | none => s1
    let s3 := { s2 with currentTheme := some theme,
                        currentThemeId := some themeId }
    applyThemeClass s3 themeId

/-- Which producer renders facet markup under the current theme: the
theme id when the active theme overrides renderFacet, none for the
built-in fallback. -/
def facetTagOf (s : UIState) : Option String :=
  match s.currentTheme with
  | some t => if t.hasRenderFacet then s.currentThemeId else none
  | none => none

/-- Which producer renders result cards under the current theme. -/
def resultTagOf (s : UIState) : Option String :=
  match s.currentTheme with
  | some t => if t.hasRenderResultCard then s.currentThemeId else none
  | none => none

/-- The source renderFacet(facet): nothing when the facets container is
not held; otherwise append one facet block to the container, produced by
the theme renderFacet override when the active theme supplies one and by
the built-in fallback otherwise. Markup is abstracted to its producer
tag, source page id and facet name. -/
def renderFacetStep (s : UIState) (page : Page) (facet : Facet) : UIState :=
  if !s.facetContainer then s
  else { s with facetItems :=
    s.facetItems ++ [⟨facetTagOf s, page.pid, facet.name⟩] }

/-- The source renderAllFacets(page): nothing when the page has no
facets; otherwise render each facet in order. The displayName mapping and
the date input setup affect only markup internals not modelled here. -/
def renderAllFacets (s : UIState) (page : Page) : UIState :=
  if page.facets.isEmpty then s
  else page.facets.foldl (fun st f => renderFacetStep st page f) s

/-- The source renderSearchResults(page): clear the results and
pagination containers, show the empty state when the page has no results,
otherwise render one card per result, each produced by the theme
renderResultCard override when supplied and by the built-in fallback
otherwise. The configurations considered have no render hooks and a null
resultTemplate. -/
def renderSearchResults (s : UIState) (page : Page) : UIState :=
  if page.results.isEmpty then { s with resultItems := [] }
  else { s with resultItems :=
    page.results.map (fun r => ⟨resultTagOf s, page.pid, r⟩) }

/-- The source initFacetContainer(page): look the facets container up in
the document, warn and hold nothing when it is absent, otherwise hold it
and clear its contents (the reset button wiring is event registration
only). -/
def initFacetContainer (s : UIState) : UIState :=
  if s.facetContainerInDOM then
    { s with facetContainer := true, facetItems := [] }
  else
    { s with facetContainer := false,
             warnLog := s.warnLog ++ ["Facets container element not found"] }

/-- The source switchTheme(themeId): persist the id to localStorage under
the configured theme key when one is configured, then load the new theme,
then re-render facets and results when a result page is currently
held. -/
def switchTheme (s : UIState) (themeId : String) : UIState :=
  let s0 := if s.themeLocalStorageKey.isSome then
      { s with localStorageTheme := some themeId }
    else s
  let s1 := loadTheme s0 themeId
  match s1.currentPage with
  | some p => renderSearchResults (renderAllFacets s1 p) p
  | none => s1

/-- The source initialize() when the URL carries a query term: on a
successful search the received page is stored as the current page and
facets and results are rendered from it; on a failed or empty search the
empty state is shown and the current page stays unset. -/
def startupSearchAction (s : UIState) (received : Option Page) : UIState :=
  match received with
  | some page =>
    let s1 := { s with currentPage := some page }
    renderSearchResults (renderAllFacets (initFacetContainer s1) page) page
  | none => { s with resultItems := [] }

/-- The source filter(facet) after the facet filter call resolves with a
page: re-init the facet container, render all facets and the results from
the received page. The held current page reference is not written. -/
def filterRenderAction (s : UIState) (newPage : Page) : UIState :=
  renderSearchResults (renderAllFacets (initFacetContainer s) newPage) newPage

/-- The source pagination click handler after getPage resolves: re-render
the results from the received page only; facets and the held current page
reference are untouched. -/
def paginationAction (s : UIState) (newPage : Page) : UIState :=
  renderSearchResults s newPage

/-- The source reset-all handler after page.resetFacets() resolves:
re-init the facet container, render facets and results from the reset
page. The held current page reference is not written. -/
def resetFacetsAction (s : UIState) (resetPage : Page) : UIState :=
  renderSearchResults (renderAllFacets (initFacetContainer s) resetPage) resetPage

/-- The minimal zen style theme pair used by the concrete scenarios:
both carry a stylesheet, both hooks and both component overrides. -/
def themeA : Theme := ⟨some "themes/a.css", true, true, true, true⟩

/-- Second registered theme of the concrete scenarios. -/
def themeB : Theme := ⟨some "themes/b.css", true, true, true, true⟩

/-- A held result page with one facet and one result. -/
def pageOne : Page := ⟨1, [⟨"mime_type"⟩], [7]⟩

/-- A second page, as received from a facet filter call. -/
def pageTwo : Page := ⟨2, [⟨"mime_type"⟩], [9]⟩

/-- A concrete running instance: theme a is active with its stylesheet
attached and marker applied, its activation hook has run once, page one
is held and rendered, and the facets container is held. -/
def stateA : UIState :=
  { registry := [("a", themeA), ("b", themeB)],
    themeLocalStorageKey := some "smartsearch-theme",
    currentTheme := some themeA,
    currentThemeId := some "a",
    loadedThemeCSS := [("a", "themes/a.css")],
    headLinks := [("a", "themes/a.css")],
    bodyClasses := ["theme-a"],
    hookLog := [HookEvent.initHook "a"],
    warnLog := [],
    localStorageTheme := some "a",
    facetContainerInDOM := true,
    facetContainer := true,
    facetItems := [⟨some "a", 1, "mime_type"⟩],
    resultItems := [⟨some "a", 1, 7⟩],
    currentPage := some pageOne }

theorem lookupField_eq_none_of_not_mem (l : Fields) (key : String)
    (h : key ∉ l.map Prod.fst) : lookupField l key = none := by
  induction l with
  | nil => rfl
  | cons hd tl ih =>
    obtain ⟨k, v⟩ := hd
    simp only [List.map_cons, List.mem_cons] at h
    push_neg at h
    simp [lookupField, Ne.symm h.1, ih h.2]

theorem lookupField_setField (out : Fields) (k key : String) (v : JSValue) :
    lookupField (setField out k v) key =
      if key = k then some v else lookupField out key := by
  induction out with
  | nil =>
    rcases eq_or_ne key k with h | h
    · subst h; simp [setField, lookupField]
    · simp [setField, lookupField, h, Ne.symm h]
  | cons hd tl ih =>
    obtain ⟨k0, v0⟩ := hd
    rcases eq_or_ne k0 k with h0 | h0
    · subst h0
      rcases eq_or_ne key k0 with h | h
      · subst h; simp [setField, lookupField]
      · simp [setField, lookupField, h, Ne.symm h]
    · rcases eq_or_ne key k0 with h | h
      · subst h
        simp [setField, lookupField, h0, Ne.symm h0]
      · simp [setField, lookupField, h0, h, Ne.symm h, ih]

theorem lookupField_mergeFields (sfs tfs out : Fields) (key : String)
    (hnd : (sfs.map Prod.fst).Nodup) :
    lookupField (mergeFields tfs out sfs) key =
      match lookupField sfs key with
      | some sv => some (procField tfs key sv)
      | none => lookupField out key := by
  induction sfs generalizing out with
  | nil => simp [mergeFields, lookupField]
  | cons hd rest ih =>
    obtain ⟨k, v⟩ := hd
    simp only [List.map_cons, List.nodup_cons] at hnd
    have hstep : mergeFields tfs out ((k, v) :: rest) =
        mergeFields tfs (setField out k (procField tfs k v)) rest := by
      by_cases hv : isObject v
      · cases hl : lookupField tfs k <;> simp [mergeFields, procField, hv, hl]
      · simp [mergeFields, procField, hv]
    rw [hstep, ih _ hnd.2]
    by_cases hk : key = k
    · subst hk
      have hnone : lookupField rest key = none :=
        lookupField_eq_none_of_not_mem _ _ hnd.1
      simp [hnone, lookupField, lookupField_setField]
    · simp only [lookupField, if_neg (Ne.symm hk)]
      cases hr : lookupField rest key <;>
        simp [hr, lookupField_setField, hk]

/-- C1 (amended). The merge is a recursive structural merge with these
per-key semantics, for any defaults object tfs and user object sfs with
unique keys: a user key whose value is a non-object replaces the default
wholesale; a user key whose value is an object and which is absent from
the defaults is taken wholesale; a user key whose value is an object and
whose default value is also an object merges key-wise recursively; but a
user key whose value is an object while the defaults hold a non-object
value there does NOT take the user value: the result is the object
holding the own enumerable properties of the non-object default
(index-keyed elements for an array, indexed characters for a string,
empty for null and other primitives), discarding the user entries;
keys the user does not supply keep their default value, so a partially
supplied nested group leaves unsupplied sibling keys at their defaults. -/
theorem deepMerge_key_semantics (tfs sfs : Fields) (key : String)
    (hnd : (sfs.map Prod.fst).Nodup) :
    deepMerge (JSValue.vObj tfs) (JSValue.vObj sfs) =
      JSValue.vObj (mergeFields tfs tfs sfs) ∧
    (∀ sv, lookupField sfs key = some sv → isObject sv = false →
      lookupField (mergeFields tfs tfs sfs) key = some sv) ∧
    (∀ sv, lookupField sfs key = some sv → isObject sv = true →
      lookupField tfs key = none →
      lookupField (mergeFields tfs tfs sfs) key = some sv) ∧
    (∀ svf tvf, lookupField sfs key = some (JSValue.vObj svf) →
      lookupField tfs key = some (JSValue.vObj tvf) →
      lookupField (mergeFields tfs tfs sfs) key =
        some (deepMerge (JSValue.vObj tvf) (JSValue.vObj svf))) ∧
    (∀ sv tv, lookupField sfs key = some sv → isObject sv = true →
      lookupField tfs key = some tv → isObject tv = false →
      lookupField (mergeFields tfs tfs sfs) key =
        some (JSValue.vObj (objAssignEmpty tv))) ∧
    (lookupField sfs key = none →
      lookupField (mergeFields tfs tfs sfs) key = lookupField tfs key) := by
  refine ⟨by simp [deepMerge], ?_, ?_, ?_, ?_, ?_⟩
  · intro sv hs hobj
    rw [lookupField_mergeFields _ _ _ _ hnd, hs]
    simp [procField, hobj]
  · intro sv hs hobj ht
    rw [lookupField_mergeFields _ _ _ _ hnd, hs]
    simp [procField, hobj, ht]
  · intro svf tvf hs ht
    rw [lookupField_mergeFields _ _ _ _ hnd, hs]
    simp [procField, isObject, ht]
  · intro sv tv hs hobj ht htobj
    rw [lookupField_mergeFields _ _ _ _ hnd, hs]
    have : deepMerge tv sv = JSValue.vObj (objAssignEmpty tv) := by
      cases tv <;> simp_all [deepMerge, isObject]
    simp [procField, hobj, ht, this]
  · intro hs
    rw [lookupField_mergeFields _ _ _ _ hnd, hs]

/-- Witness for C1 at the spec scenario: the user overrides only
features.dateFilter; the override lands in the merged group and the
unsupplied sibling didYouMean keeps its default. -/
theorem deepMerge_key_semantics_witness :
    lookupField (mergeFields featuresDefaults featuresDefaults
        [("dateFilter", JSValue.vBool false)]) "dateFilter" =
      some (JSValue.vBool false) ∧
    lookupField (mergeFields featuresDefaults featuresDefaults
        [("dateFilter", JSValue.vBool false)]) "didYouMean" =
      some (JSValue.vBool true) := by
  constructor
  · exact (deepMerge_key_semantics featuresDefaults
      [("dateFilter", JSValue.vBool false)] "dateFilter" (by simp)).2.1
      (JSValue.vBool false) rfl rfl
  · have h := (deepMerge_key_semantics featuresDefaults
      [("dateFilter", JSValue.vBool false)] "didYouMean" (by simp)).2.2.2.2.2
      (by simp [lookupField])
    simpa [featuresDefaults, lookupField] using h

/-- C1 counterexample: with defaults holding a null sentinel at key a and
the user supplying an object there, the claim predicts the user object is
taken wholesale, but _deepMerge recurses into the null default and returns
the empty object, discarding the user leaf. -/
theorem deepMerge_claim_counterexample :
    deepMerge (JSValue.vObj [("a", JSValue.vNull)])
        (JSValue.vObj [("a", JSValue.vObj [("b", JSValue.vNum 1)])]) =
      JSValue.vObj [("a", JSValue.vObj [])] ∧
    JSValue.vObj ([] : Fields) ≠ JSValue.vObj [("b", JSValue.vNum 1)] := by
  constructor
  · simp [deepMerge, mergeFields, lookupField, setField, isObject, objAssignEmpty]
  · simp

theorem jsGetD_of_jsGetE {c : JSValue} {k : String} {v : JSValue}
    (h : jsGetE c k = .ok v) : jsGetD c k = v := by
  cases c <;> simp_all [jsGetE]

theorem jsGetE_of_truthy {c : JSValue} (k : String) (h : jsTruthy c = true) :
    jsGetE c k = .ok (jsGetD c k) := by
  cases c <;> simp_all [jsGetE, jsTruthy]

theorem jsGetE_ok_of_ok {c : JSValue} {k : String} {v : JSValue} (k2 : String)
    (h : jsGetE c k = .ok v) : jsGetE c k2 = .ok (jsGetD c k2) := by
  cases c <;> simp_all [jsGetE]

set_option maxHeartbeats 2000000 in
/-- C2 (amended). Whenever _validateConfig returns without a TypeError
(dereferencing a nullish group, such as a merged server: null, raises a
TypeError instead of the aggregated error), the list it
hands to the constructor is exactly the labels of the checklist leaves
that are missing (server URL, prepared search, title field, nonempty
description field list, nonempty link field list, and the date filter
field name when date filtering is enabled), in checklist order, so every
missing path is enumerated and never only the first; the constructor
raises its single aggregated error exactly when that list is nonempty. -/
theorem validateConfig_characterization (config : JSValue)
    (missing : List String) (h : validateConfig config = .ok missing) :
    missing = (requiredLeafMissing config).filterMap
        (fun p => if p.2 then some p.1 else none) ∧
    (missing = [] ↔ ∀ p ∈ requiredLeafMissing config, p.2 = false) ∧
    (validationError missing = none ↔ missing = []) := by
  have hmain : missing = (requiredLeafMissing config).filterMap
      (fun p => if p.2 then some p.1 else none) := by
    unfold validateConfig at h
    cases h1 : jsGetE config "server" with
    | error e => simp [h1, Bind.bind, Except.bind] at h
    | ok server =>
    simp only [h1, Bind.bind, Except.bind] at h
    cases h2 : jsGetE server "defaultURL" with
    | error e => simp [h2, Except.bind] at h
    | ok url =>
    simp only [h2] at h
    cases h3 : jsGetE server "defaultPreparedSearch" with
    | error e => simp [h3, Except.bind] at h
    | ok prepared =>
    simp only [h3] at h
    cases h4 : jsGetE config "resultFields" with
    | error e => simp [h4, Except.bind] at h
    | ok resultFields =>
    simp only [h4] at h
    cases h5 : jsGetE resultFields "title" with
    | error e => simp [h5, Except.bind] at h
    | ok title =>
    simp only [h5] at h
    cases h6 : jsGetE title "field" with
    | error e => simp [h6, Except.bind] at h
    | ok titleField =>
    simp only [h6] at h
    cases h7 : jsGetE resultFields "description" with
    | error e => simp [h7, Except.bind] at h
    | ok description =>
    simp only [h7] at h
    cases h8 : jsGetE description "fields" with
    | error e => simp [h8, Except.bind] at h
    | ok descFields =>
    simp only [h8] at h
    cases h9 : jsGetE resultFields "link" with
    | error e =>
      simp only [h9, Pure.pure, Except.pure] at h
      repeat' split at h
      all_goals simp_all
    | ok link =>
    simp only [h9] at h
    cases h10 : jsGetE link "fields" with
    | error e =>
      simp only [h10, Pure.pure, Except.pure] at h
      repeat' split at h
      all_goals simp_all
    | ok linkFields =>
    simp only [h10] at h
    cases h11 : jsGetE config "dateFilter" with
    | error e =>
      simp only [h11, Pure.pure, Except.pure] at h
      repeat' split at h
      all_goals simp_all
    | ok dateFilter =>
    simp only [h11] at h
    cases h12 : jsGetE dateFilter "enabled" with
    | error e =>
      simp only [h12, Pure.pure, Except.pure] at h
      repeat' split at h
      all_goals simp_all
    | ok enabled =>
    simp only [h12] at h
    by_cases hd : jsTruthy descFields = true
    case neg =>
      simp only [Bool.not_eq_true] at hd
      simp [hd, Pure.pure, Except.pure] at h
      by_cases hl : jsTruthy linkFields = true
      case neg =>
        simp only [Bool.not_eq_true] at hl
        simp [hl, Pure.pure, Except.pure] at h
        by_cases he : jsTruthy enabled = true
        case pos =>
          simp [he, jsGetE_ok_of_ok "fieldName" h12, Pure.pure, Except.pure] at h
          subst h
          simp [requiredLeafMissing, pathVal, jsGetD_of_jsGetE h1,
            jsGetD_of_jsGetE h2, jsGetD_of_jsGetE h3, jsGetD_of_jsGetE h4,
            jsGetD_of_jsGetE h5, jsGetD_of_jsGetE h6, jsGetD_of_jsGetE h7,
            jsGetD_of_jsGetE h8, jsGetD_of_jsGetE h9, jsGetD_of_jsGetE h10,
            jsGetD_of_jsGetE h11, jsGetD_of_jsGetE h12, hd, hl, he]
          split_ifs <;> simp_all
        case neg =>
          simp only [Bool.not_eq_true] at he
          simp [he, Pure.pure, Except.pure] at h
          subst h
          simp [requiredLeafMissing, pathVal, jsGetD_of_jsGetE h1,
            jsGetD_of_jsGetE h2, jsGetD_of_jsGetE h3, jsGetD_of_jsGetE h4,
            jsGetD_of_jsGetE h5, jsGetD_of_jsGetE h6, jsGetD_of_jsGetE h7,
            jsGetD_of_jsGetE h8, jsGetD_of_jsGetE h9, jsGetD_of_jsGetE h10,
            jsGetD_of_jsGetE h11, jsGetD_of_jsGetE h12, hd, hl, he]
          split_ifs <;> simp_all
      case pos =>
        simp [hl, jsGetE_of_truthy _ hl, Pure.pure, Except.pure] at h
        by_cases he : jsTruthy enabled = true
        case pos =>
          simp [he, jsGetE_ok_of_ok "fieldName" h12, Pure.pure, Except.pure] at h
          subst h
          simp [requiredLeafMissing, pathVal, jsGetD_of_jsGetE h1,
            jsGetD_of_jsGetE h2, jsGetD_of_jsGetE h3, jsGetD_of_jsGetE h4,
            jsGetD_of_jsGetE h5, jsGetD_of_jsGetE h6, jsGetD_of_jsGetE h7,
            jsGetD_of_jsGetE h8, jsGetD_of_jsGetE h9, jsGetD_of_jsGetE h10,
            jsGetD_of_jsGetE h11, jsGetD_of_jsGetE h12, hd, hl, he]
          split_ifs <;> simp_all
        case neg =>
          simp only [Bool.not_eq_true] at he
          simp [he, Pure.pure, Except.pure] at h
          subst h
          simp [requiredLeafMissing, pathVal, jsGetD_of_jsGetE h1,
            jsGetD_of_jsGetE h2, jsGetD_of_jsGetE h3, jsGetD_of_jsGetE h4,
            jsGetD_of_jsGetE h5, jsGetD_of_jsGetE h6, jsGetD_of_jsGetE h7,
            jsGetD_of_jsGetE h8, jsGetD_of_jsGetE h9, jsGetD_of_jsGetE h10,
            jsGetD_of_jsGetE h11, jsGetD_of_jsGetE h12, hd, hl, he]
          split_ifs <;> simp_all
    case pos =>
      simp [hd, jsGetE_of_truthy _ hd, Pure.pure, Except.pure] at h
      by_cases hl : jsTruthy linkFields = true
      case neg =>
        simp only [Bool.not_eq_true] at hl
        simp [hl, Pure.pure, Except.pure] at h
        by_cases he : jsTruthy enabled = true
        case pos =>
          simp [he, jsGetE_ok_of_ok "fieldName" h12, Pure.pure, Except.pure] at h
          subst h
          simp [requiredLeafMissing, pathVal, jsGetD_of_jsGetE h1,
            jsGetD_of_jsGetE h2, jsGetD_of_jsGetE h3, jsGetD_of_jsGetE h4,
            jsGetD_of_jsGetE h5, jsGetD_of_jsGetE h6, jsGetD_of_jsGetE h7,
            jsGetD_of_jsGetE h8, jsGetD_of_jsGetE h9, jsGetD_of_jsGetE h10,
            jsGetD_of_jsGetE h11, jsGetD_of_jsGetE h12, hd, hl, he]
          split_ifs <;> simp_all
        case neg =>
          simp only [Bool.not_eq_true] at he
          simp [he, Pure.pure, Except.pure] at h
          subst h
          simp [requiredLeafMissing, pathVal, jsGetD_of_jsGetE h1,
            jsGetD_of_jsGetE h2, jsGetD_of_jsGetE h3, jsGetD_of_jsGetE h4,
            jsGetD_of_jsGetE h5, jsGetD_of_jsGetE h6, jsGetD_of_jsGetE h7,
            jsGetD_of_jsGetE h8, jsGetD_of_jsGetE h9, jsGetD_of_jsGetE h10,
            jsGetD_of_jsGetE h11, jsGetD_of_jsGetE h12, hd, hl, he]
          split_ifs <;> simp_all
      case pos =>
        simp [hl, jsGetE_of_truthy _ hl, Pure.pure, Except.pure] at h
        by_cases he : jsTruthy enabled = true
        case pos =>
          simp [he, jsGetE_ok_of_ok "fieldName" h12, Pure.pure, Except.pure] at h
          subst h
          simp [requiredLeafMissing, pathVal, jsGetD_of_jsGetE h1,
            jsGetD_of_jsGetE h2, jsGetD_of_jsGetE h3, jsGetD_of_jsGetE h4,
            jsGetD_of_jsGetE h5, jsGetD_of_jsGetE h6, jsGetD_of_jsGetE h7,
            jsGetD_of_jsGetE h8, jsGetD_of_jsGetE h9, jsGetD_of_jsGetE h10,
            jsGetD_of_jsGetE h11, jsGetD_of_jsGetE h12, hd, hl, he]
          split_ifs <;> simp_all
        case neg =>
          simp only [Bool.not_eq_true] at he
          simp [he, Pure.pure, Except.pure] at h
          subst h
          simp [requiredLeafMissing, pathVal, jsGetD_of_jsGetE h1,
            jsGetD_of_jsGetE h2, jsGetD_of_jsGetE h3, jsGetD_of_jsGetE h4,
            jsGetD_of_jsGetE h5, jsGetD_of_jsGetE h6, jsGetD_of_jsGetE h7,
            jsGetD_of_jsGetE h8, jsGetD_of_jsGetE h9, jsGetD_of_jsGetE h10,
            jsGetD_of_jsGetE h11, jsGetD_of_jsGetE h12, hd, hl, he]
          split_ifs <;> simp_all
  refine ⟨hmain, ?_, ?_⟩
  · rw [hmain]
    simp [requiredLeafMissing]
  · cases missing <;> simp [validationError]

/-- Witness for C2 at a concrete configuration missing both the server URL
and the title field: both paths are reported in the single validation
pass, and the aggregated error is raised. -/
theorem validateConfig_characterization_witness :
    (["server.defaultURL", "resultFields.title.field"] : List String) =
      (requiredLeafMissing sampleMissingConfig).filterMap
        (fun p => if p.2 then some p.1 else none) ∧
    (validationError ["server.defaultURL", "resultFields.title.field"] = none ↔
      (["server.defaultURL", "resultFields.title.field"] : List String) = []) := by
  have h := validateConfig_characterization sampleMissingConfig
    ["server.defaultURL", "resultFields.title.field"] (by rfl)
  exact ⟨h.1, h.2.2⟩

/-- C2 counterexample: merging the user configuration server: null
replaces the whole server group with null; on this merged configuration
the server URL leaf is missing, so the claim demands the single
aggregated error enumerating every missing path, but _validateConfig
instead throws a TypeError (the error case of the embedding) from the
property read of defaultURL on the null server group, before any
aggregation happens. -/
theorem validateConfig_claim_counterexample :
    validateConfig (mergeConfig (JSValue.vObj [("server", JSValue.vNull)])) =
      .error () ∧
    jsTruthy (pathVal (mergeConfig (JSValue.vObj [("server", JSValue.vNull)]))
      ["server", "defaultURL"]) = false := by
  have hnd : (([("server", JSValue.vNull)] : Fields).map Prod.fst).Nodup := by
    simp
  have hlook : lookupField (mergeFields defaultsConfigFields
      defaultsConfigFields [("server", JSValue.vNull)]) "server" =
      some JSValue.vNull := by
    rw [lookupField_mergeFields _ _ _ _ hnd]
    simp [lookupField, procField, isObject]
  have hm : mergeConfig (JSValue.vObj [("server", JSValue.vNull)]) =
      JSValue.vObj (mergeFields defaultsConfigFields defaultsConfigFields
        [("server", JSValue.vNull)]) := by
    simp [mergeConfig, defaultsConfig, deepMerge]
  constructor
  · rw [hm]
    unfold validateConfig
    rw [show jsGetE (JSValue.vObj (mergeFields defaultsConfigFields
        defaultsConfigFields [("server", JSValue.vNull)])) "server" =
        .ok JSValue.vNull from by simp [jsGetE, jsGetD, hlook]]
    simp [Bind.bind, Except.bind, jsGetE]
  · rw [hm]
    simp [pathVal, jsGetD, hlook, jsTruthy]

theorem getFieldScan_eq_find (result : Fields) (xs : List JSValue) :
    getFieldScan result xs =
      ((xs.map (fun f => (lookupField result (jsToPropKey f)).getD .vUndefined)).find?
        jsTruthy).map arrayFirstOrSelf := by
  induction xs with
  | nil => rfl
  | cons f rest ih =>
    by_cases hv : jsTruthy ((lookupField result (jsToPropKey f)).getD .vUndefined) <;>
      simp [getFieldScan, List.find?_cons, hv, ih]

/-- C3 (amended). getField resolves the logical name through the
resultFields entry: with a truthy single field entry it returns the field
value when that value is truthy, arrays reduced to their first element,
and the configured fallback (null when the fallback is falsy) otherwise;
with an ordered candidate list it returns the reduced value of the first
candidate whose result value is truthy under JS truthiness — an empty
string or zero is skipped, but any array value, even an empty one, is a
hit, an empty array reducing to undefined — and the fallback (null when
falsy) when no candidate value is truthy; and null when the entry is
missing, falsy, or offers neither a truthy field nor fields entry. -/
theorem getField_characterization (resultFields result : Fields)
    (name : String) :
    (∀ fc, lookupField resultFields name = some fc → jsTruthy fc = true →
      jsTruthy (jsGetD fc "field") = true →
      getField resultFields result name =
        .ok (if jsTruthy ((lookupField result
                (jsToPropKey (jsGetD fc "field"))).getD .vUndefined) then
              arrayFirstOrSelf ((lookupField result
                (jsToPropKey (jsGetD fc "field"))).getD .vUndefined)
            else fallbackOrNull fc)) ∧
    (∀ fc xs, lookupField resultFields name = some fc → jsTruthy fc = true →
      jsTruthy (jsGetD fc "field") = false →
      jsGetD fc "fields" = JSValue.vArr xs →
      getField resultFields result name =
        .ok ((((xs.map (fun f =>
            (lookupField result (jsToPropKey f)).getD .vUndefined)).find?
              jsTruthy).map arrayFirstOrSelf).getD (fallbackOrNull fc))) ∧
    ((lookupField resultFields name = none ∨
        (∃ fc, lookupField resultFields name = some fc ∧ jsTruthy fc = false)) →
      getField resultFields result name = .ok .vNull) ∧
    (∀ fc, lookupField resultFields name = some fc → jsTruthy fc = true →
      jsTruthy (jsGetD fc "field") = false →
      jsTruthy (jsGetD fc "fields") = false →
      getField resultFields result name = .ok .vNull) := by
  refine ⟨?_, ?_, ?_, ?_⟩
  · intro fc hfc htr hfield
    simp only [getField, hfc, Option.getD_some, htr, Bool.not_true,
      Bool.false_eq_true, if_false, hfield, if_true]
    split <;> simp_all
  · intro fc xs hfc htr hfield hfields
    simp only [getField, hfc, Option.getD_some, htr, Bool.not_true,
      Bool.false_eq_true, if_false, hfield, hfields]
    have harr : jsTruthy (JSValue.vArr xs) = true := rfl
    simp only [harr, if_true]
    rw [getFieldScan_eq_find]
    cases ((xs.map (fun f =>
        (lookupField result (jsToPropKey f)).getD .vUndefined)).find? jsTruthy) <;>
      simp
  · intro hcase
    rcases hcase with hnone | ⟨fc, hfc, hfalse⟩
    · simp [getField, hnone, jsTruthy]
    · simp [getField, hfc, hfalse]
  · intro fc hfc htr hfield hfields
    simp [getField, hfc, htr, hfield, hfields]

/-- Witness for C3 at the spec scenario: candidates
[content, description, text] with only text set on the result resolve to
the text value. -/
theorem getField_characterization_witness :
    getField
      [("description", JSValue.vObj [
        ("fields", JSValue.vArr [JSValue.vStr "content",
          JSValue.vStr "description", JSValue.vStr "text"]),
        ("fallback", JSValue.vStr "No description available")])]
      [("text", JSValue.vStr "T")] "description" = .ok (JSValue.vStr "T") := by
  have h := (getField_characterization
    [("description", JSValue.vObj [
      ("fields", JSValue.vArr [JSValue.vStr "content",
        JSValue.vStr "description", JSValue.vStr "text"]),
      ("fallback", JSValue.vStr "No description available")])]
    [("text", JSValue.vStr "T")] "description").2.1
    (JSValue.vObj [
      ("fields", JSValue.vArr [JSValue.vStr "content",
        JSValue.vStr "description", JSValue.vStr "text"]),
      ("fallback", JSValue.vStr "No description available")])
    [JSValue.vStr "content", JSValue.vStr "description", JSValue.vStr "text"]
    rfl rfl rfl rfl
  simpa using h

/-- C3 counterexample: with candidates [content, description, text], a
result whose content field is an empty array and whose text field is set
makes the claim predict the text value, but getField treats the truthy
empty array as a hit and returns its undefined first element. -/
theorem getField_claim_counterexample :
    getField
      [("description", JSValue.vObj [
        ("fields", JSValue.vArr [JSValue.vStr "content",
          JSValue.vStr "description", JSValue.vStr "text"]),
        ("fallback", JSValue.vStr "No description available")])]
      [("content", JSValue.vArr []), ("text", JSValue.vStr "T")]
      "description" = .ok JSValue.vUndefined ∧
    JSValue.vUndefined ≠ JSValue.vStr "T" := ⟨rfl, by simp⟩

/-- C4. With date filtering enabled: only a start boundary yields the
inclusive range with a wildcard upper end, only an end boundary the
wildcard lower end, both boundaries the full range, each set as the named
custom parameter before the facet filter call; with neither boundary set,
no date constraint is applied and the previously set custom date
parameter is deleted before the facet filter call. -/
theorem filter_dateRange_semantics (cfg : DateFilterConfig)
    (toISO : String → String) (checkedValues : List String) (reset : Bool)
    (startDateValue endDateValue : Option String)
    (hen : cfg.enabled = true) :
    (∀ s, startDateValue = some s → s ≠ "" → strSet endDateValue = false →
      filterClientEvents cfg toISO checkedValues reset startDateValue
          endDateValue =
        [ClientEvent.setCustom cfg.solrFilterParam
          (cfg.fieldName ++ ":[" ++ toISO (s ++ "T00:00:00Z") ++ " TO " ++
            "*" ++ "]"),
         ClientEvent.facetFilterCall (if reset then [] else checkedValues)]) ∧
    (∀ e, strSet startDateValue = false → endDateValue = some e → e ≠ "" →
      filterClientEvents cfg toISO checkedValues reset startDateValue
          endDateValue =
        [ClientEvent.setCustom cfg.solrFilterParam
          (cfg.fieldName ++ ":[" ++ "*" ++ " TO " ++
            toISO (e ++ "T23:59:59Z") ++ "]"),
         ClientEvent.facetFilterCall (if reset then [] else checkedValues)]) ∧
    (∀ s e, startDateValue = some s → s ≠ "" → endDateValue = some e →
      e ≠ "" →
      filterClientEvents cfg toISO checkedValues reset startDateValue
          endDateValue =
        [ClientEvent.setCustom cfg.solrFilterParam
          (cfg.fieldName ++ ":[" ++ toISO (s ++ "T00:00:00Z") ++ " TO " ++
            toISO (e ++ "T23:59:59Z") ++ "]"),
         ClientEvent.facetFilterCall (if reset then [] else checkedValues)]) ∧
    (strSet startDateValue = false → strSet endDateValue = false →
      filterClientEvents cfg toISO checkedValues reset startDateValue
          endDateValue =
        [ClientEvent.deleteCustom cfg.solrFilterParam,
         ClientEvent.facetFilterCall (if reset then [] else checkedValues)]) := by
  refine ⟨?_, ?_, ?_, ?_⟩
  · intro s hs hne hend
    subst hs
    have hstart : strSet (some s) = true := by simp [strSet, hne]
    simp [filterClientEvents, hen, hstart, hend]
  · intro e hstart he hne
    subst he
    have hendT : strSet (some e) = true := by simp [strSet, hne]
    simp [filterClientEvents, hen, hstart, hendT]
  · intro s e hs hsne he hene
    subst hs; subst he
    have hstart : strSet (some s) = true := by simp [strSet, hsne]
    have hendT : strSet (some e) = true := by simp [strSet, hene]
    simp [filterClientEvents, hen, hstart, hendT]
  · intro hstart hend
    simp [filterClientEvents, hen, hstart, hend]

/-- Witness for C4: concrete start-only boundary produces the open-ended
upper range on the fq parameter before the facet filter call. -/
theorem filter_dateRange_semantics_witness :
    filterClientEvents ⟨true, "meta_date", "fq"⟩ (fun s => s) ["pdf"] false
        (some "2024-01-01") none =
      [ClientEvent.setCustom "fq"
        ("meta_date" ++ ":[" ++ ("2024-01-01" ++ "T00:00:00Z") ++ " TO " ++
          "*" ++ "]"),
       ClientEvent.facetFilterCall ["pdf"]] := by
  have h := (filter_dateRange_semantics ⟨true, "meta_date", "fq"⟩
    (fun s => s) ["pdf"] false (some "2024-01-01") none rfl).1
    "2024-01-01" rfl (by simp) rfl
  simpa using h

/-- C7 (amended). formatDate returns the configured fallback when the
resolved date value is missing or falsy; the locale-formatted string when
the value parses and the formatter succeeds; the fallback again when the
formatter itself throws (invalid options); but an unparseable value
yields the platform string Invalid Date, not the fallback; and in every
case it returns a value rather than throwing. -/
theorem formatDate_characterization (dateConfig result : Fields)
    (parseDate : JSValue → Option Int)
    (formatTimestamp : Int → Except Unit String) :
    (jsTruthy (dateFieldValue dateConfig result) = false →
      formatDate dateConfig result parseDate formatTimestamp =
        jsGetD (JSValue.vObj dateConfig) "fallback") ∧
    (∀ t s, jsTruthy (dateFieldValue dateConfig result) = true →
      parseDate (dateFieldValue dateConfig result) = some t →
      formatTimestamp t = .ok s →
      formatDate dateConfig result parseDate formatTimestamp =
        JSValue.vStr s) ∧
    (jsTruthy (dateFieldValue dateConfig result) = true →
      parseDate (dateFieldValue dateConfig result) = none →
      formatDate dateConfig result parseDate formatTimestamp =
        JSValue.vStr "Invalid Date") ∧
    (∀ t, jsTruthy (dateFieldValue dateConfig result) = true →
      parseDate (dateFieldValue dateConfig result) = some t →
      formatTimestamp t = .error () →
      formatDate dateConfig result parseDate formatTimestamp =
        jsGetD (JSValue.vObj dateConfig) "fallback") := by
  refine ⟨?_, ?_, ?_, ?_⟩
  · intro hfalsy
    simp [formatDate, hfalsy]
  · intro t s htruthy hparse hfmt
    simp [formatDate, htruthy, hparse, hfmt]
  · intro htruthy hparse
    simp [formatDate, htruthy, hparse]
  · intro t htruthy hparse hfmt
    simp [formatDate, htruthy, hparse, hfmt]

/-- Witness for C7: a result without the date field yields the fallback,
and a parseable value yields the formatted string. -/
theorem formatDate_characterization_witness :
    formatDate [("field", JSValue.vStr "meta_date"),
        ("fallback", JSValue.vStr "No date")] []
      (fun _ => some 0) (fun _ => .ok "Jan 1, 2024") =
      JSValue.vStr "No date" ∧
    formatDate [("field", JSValue.vStr "meta_date"),
        ("fallback", JSValue.vStr "No date")]
      [("meta_date", JSValue.vStr "2024-01-01")]
      (fun _ => some 0) (fun _ => .ok "Jan 1, 2024") =
      JSValue.vStr "Jan 1, 2024" := by
  constructor
  · have h := (formatDate_characterization
      [("field", JSValue.vStr "meta_date"),
        ("fallback", JSValue.vStr "No date")] []
      (fun _ => some 0) (fun _ => .ok "Jan 1, 2024")).1 rfl
    simpa using h
  · have h := (formatDate_characterization
      [("field", JSValue.vStr "meta_date"),
        ("fallback", JSValue.vStr "No date")]
      [("meta_date", JSValue.vStr "2024-01-01")]
      (fun _ => some 0) (fun _ => .ok "Jan 1, 2024")).2.1 0 "Jan 1, 2024"
      rfl rfl rfl
    simpa using h

/-- C7 counterexample: an unparseable date value makes the claim predict
the configured fallback, but the source returns the platform string
Invalid Date, because new Date does not throw on garbage and
toLocaleDateString on an Invalid Date returns that string instead of
raising into the catch block. -/
theorem formatDate_claim_counterexample :
    formatDate [("field", JSValue.vStr "meta_date"),
        ("fallback", JSValue.vStr "No date")]
      [("meta_date", JSValue.vStr "not-a-date")]
      (fun _ => none) (fun _ => .ok "x") = JSValue.vStr "Invalid Date" ∧
    JSValue.vStr "Invalid Date" ≠ JSValue.vStr "No date" := ⟨rfl, by simp⟩

theorem removeLinks_self (l : List (String × String)) : removeLinks l l = [] := by
  induction l with
  | nil => rfl
  | cons x rest ih => simpa [removeLinks] using ih

theorem strAppendLeftCancel {a b c : String} (h : a ++ b = a ++ c) : b = c := by
  have h2 := congrArg String.data h
  simp only [String.data_append] at h2
  exact String.ext (List.append_cancel_left h2)

theorem not_mem_removeClass (cs : List String) (c : String) :
    c ∉ removeClass cs c := by
  simp [removeClass]

theorem not_mem_addClass {cs : List String} {c d : String}
    (h1 : d ∉ cs) (h2 : d ≠ c) : d ∉ addClass cs c := by
  simp only [addClass]
  split <;> simp_all

theorem count_addClass_removeClass (cs : List String) (c : String) :
    (addClass (removeClass cs c) c).count c = 1 := by
  have hmem : c ∉ removeClass cs c := not_mem_removeClass cs c
  simp [addClass, hmem, List.count_eq_zero.mpr hmem]

theorem foldl_renderFacetStep_eq (p : Page) (fs : List Facet) :
    ∀ s : UIState, s.facetContainer = true →
      fs.foldl (fun st f => renderFacetStep st p f) s =
        { s with facetItems :=
          s.facetItems ++ fs.map (fun f => ⟨facetTagOf s, p.pid, f.name⟩) } := by
  induction fs with
  | nil => intro s _; simp
  | cons f rest ih =>
    intro s h
    have hstep : renderFacetStep s p f =
        { s with facetItems := s.facetItems ++ [⟨facetTagOf s, p.pid, f.name⟩] } := by
      simp [renderFacetStep, h]
    rw [List.foldl_cons, hstep, ih _ (by exact h)]
    simp [facetTagOf]

theorem renderAllFacets_eq (s : UIState) (p : Page)
    (h : s.facetContainer = true) :
    renderAllFacets s p =
      { s with facetItems := if p.facets.isEmpty then s.facetItems
          else s.facetItems ++
            p.facets.map (fun f => ⟨facetTagOf s, p.pid, f.name⟩) } := by
  by_cases hp : p.facets.isEmpty <;>
    simp [renderAllFacets, hp, foldl_renderFacetStep_eq p p.facets s h]

theorem foldl_renderFacetStep_facetItems_only (p : Page) (fs : List Facet) :
    ∀ s : UIState, ∃ items,
      fs.foldl (fun st f => renderFacetStep st p f) s =
        { s with facetItems := items } := by
  induction fs with
  | nil => intro s; exact ⟨s.facetItems, rfl⟩
  | cons f rest ih =>
    intro s
    obtain ⟨items, hitems⟩ := ih (renderFacetStep s p f)
    refine ⟨items, ?_⟩
    rw [List.foldl_cons, hitems]
    by_cases h : s.facetContainer <;> simp [renderFacetStep, h]

theorem renderAllFacets_facetItems_only (s : UIState) (p : Page) :
    ∃ items, renderAllFacets s p = { s with facetItems := items } := by
  by_cases hp : p.facets.isEmpty
  · exact ⟨s.facetItems, by simp [renderAllFacets, hp]⟩
  · obtain ⟨items, h⟩ := foldl_renderFacetStep_facetItems_only p p.facets s
    exact ⟨items, by simp [renderAllFacets, hp, h]⟩

theorem loadTheme_unknown_eq (s : UIState) (themeId : String)
    (h : lookupKey s.registry themeId = none) :
    loadTheme s themeId = { s with warnLog := s.warnLog ++
      ["Theme not found, using default: " ++ themeId] } := by
  simp [loadTheme, h]

theorem loadTheme_switch_semantics (s : UIState) (a b : Theme)
    (aid bid css : String)
    (hca : s.currentTheme = some a) (hcid : s.currentThemeId = some aid)
    (hreg : lookupKey s.registry bid = some b) (hcss : b.cssFile = some css)
    (had : a.hasDestroy = true) (hbi : b.hasInit = true)
    (hlinks : s.headLinks = s.loadedThemeCSS) :
    loadTheme s bid = { s with
      currentTheme := some b, currentThemeId := some bid,
      hookLog := s.hookLog ++
        [HookEvent.destroyHook aid, HookEvent.initHook bid],
      bodyClasses := addClass (removeClass s.bodyClasses ("theme-" ++ aid))
        ("theme-" ++ bid),
      headLinks := [(bid, css)], loadedThemeCSS := [(bid, css)] } := by
  have hrm : removeLinks s.headLinks s.loadedThemeCSS = [] := by
    rw [hlinks]; exact removeLinks_self s.loadedThemeCSS
  have hunload : unloadTheme s = { s with
      currentTheme := none, currentThemeId := none,
      hookLog := s.hookLog ++ [HookEvent.destroyHook aid],
      bodyClasses := removeClass s.bodyClasses ("theme-" ++ aid),
      headLinks := [], loadedThemeCSS := [] } := by
    simp [unloadTheme, hca, hcid, had, hrm]
  simp [loadTheme, hreg, hca, hunload, hcss, loadThemeCSS, applyThemeClass, hbi]

theorem loadTheme_then_render (s0 : UIState) (a b : Theme)
    (aid bid css : String) (p : Page)
    (hca : s0.currentTheme = some a) (hcid : s0.currentThemeId = some aid)
    (hreg : lookupKey s0.registry bid = some b) (hcss : b.cssFile = some css)
    (had : a.hasDestroy = true) (hbi : b.hasInit = true)
    (hfc : s0.facetContainer = true)
    (hlinks : s0.headLinks = s0.loadedThemeCSS) :
    renderSearchResults (renderAllFacets (loadTheme s0 bid) p) p =
      { s0 with
        currentTheme := some b, currentThemeId := some bid,
        hookLog := s0.hookLog ++
          [HookEvent.destroyHook aid, HookEvent.initHook bid],
        bodyClasses := addClass (removeClass s0.bodyClasses ("theme-" ++ aid))
          ("theme-" ++ bid),
        headLinks := [(bid, css)], loadedThemeCSS := [(bid, css)],
        facetItems := if p.facets.isEmpty then s0.facetItems
          else s0.facetItems ++ p.facets.map (fun f =>
            ⟨if b.hasRenderFacet then some bid else none, p.pid, f.name⟩),
        resultItems := if p.results.isEmpty then []
          else p.results.map (fun r =>
            ⟨if b.hasRenderResultCard then some bid else none, p.pid, r⟩) } := by
  rw [loadTheme_switch_semantics s0 a b aid bid css hca hcid hreg hcss had
    hbi hlinks]
  rw [renderAllFacets_eq _ p (by exact hfc)]
  by_cases hr : p.results.isEmpty <;> by_cases hf : p.facets.isEmpty <;>
    simp [renderSearchResults, facetTagOf, resultTagOf, hr, hf]

theorem renderSearchResults_resultItems_only (s : UIState) (p : Page) :
    ∃ items, renderSearchResults s p = { s with resultItems := items } := by
  by_cases hr : p.results.isEmpty
  · exact ⟨[], by simp [renderSearchResults, hr]⟩
  · exact ⟨p.results.map (fun r => ⟨resultTagOf s, p.pid, r⟩),
      by simp [renderSearchResults, hr]⟩

theorem render_pipeline_shape (s : UIState) (p : Page) :
    ∃ fi ri, renderSearchResults (renderAllFacets s p) p =
      { s with facetItems := fi, resultItems := ri } := by
  obtain ⟨fitems, hf⟩ := renderAllFacets_facetItems_only s p
  obtain ⟨ritems, hres⟩ :=
    renderSearchResults_resultItems_only { s with facetItems := fitems } p
  exact ⟨fitems, ritems, by rw [hf, hres]⟩

theorem initFacetContainer_shape (s : UIState) :
    ∃ fc fi wl, initFacetContainer s =
      { s with facetContainer := fc, facetItems := fi, warnLog := wl } := by
  by_cases h : s.facetContainerInDOM
  · exact ⟨true, [], s.warnLog, by simp [initFacetContainer, h]⟩
  · exact ⟨false, s.facetItems,
      s.warnLog ++ ["Facets container element not found"],
      by simp [initFacetContainer, h]⟩

theorem pipeline_resultItems (s : UIState) (p : Page) :
    (renderSearchResults (renderAllFacets s p) p).resultItems =
      (if p.results.isEmpty then []
       else p.results.map (fun r => ⟨resultTagOf s, p.pid, r⟩)) ∧
    (renderSearchResults (renderAllFacets s p) p).currentPage =
      s.currentPage := by
  obtain ⟨fi, hf⟩ := renderAllFacets_facetItems_only s p
  rw [hf]
  by_cases hr : p.results.isEmpty <;>
    simp [renderSearchResults, resultTagOf, hr]

/-- C8. An activation request for a theme id not present in the registry
is a no-op apart from the logged warning: the whole state — the active
theme, its stylesheet references and marker, the hook log, the containers
and the held page — is exactly the previous state with only the warning
appended, so no deactivation or activation hook runs. -/
theorem loadTheme_unknown_noop (s : UIState) (themeId : String)
    (h : lookupKey s.registry themeId = none) :
    loadTheme s themeId = { s with warnLog := s.warnLog ++
      ["Theme not found, using default: " ++ themeId] } :=
  loadTheme_unknown_eq s themeId h

/-- Witness for C8: activating the unregistered id zen on the running
instance only appends the warning. -/
theorem loadTheme_unknown_noop_witness :
    loadTheme stateA "zen" = { stateA with warnLog :=
      ["Theme not found, using default: " ++ "zen"] } := by
  have h := loadTheme_unknown_noop stateA "zen" rfl
  simpa using h

/-- C10. switchTheme writes the requested id to client-side storage under
the configured theme key before the registry lookup happens: even an
unregistered id is persisted as the startup default, while the activation
itself is a warning-only no-op — the active theme, its stylesheet links,
marker classes and hook log stay unchanged for the rest of the
session. -/
theorem switchTheme_persists_unknown_id (s : UIState) (themeId : String)
    (hkey : s.themeLocalStorageKey.isSome = true)
    (hmiss : lookupKey s.registry themeId = none) :
    (switchTheme s themeId).localStorageTheme = some themeId ∧
    (switchTheme s themeId).currentTheme = s.currentTheme ∧
    (switchTheme s themeId).currentThemeId = s.currentThemeId ∧
    (switchTheme s themeId).headLinks = s.headLinks ∧
    (switchTheme s themeId).loadedThemeCSS = s.loadedThemeCSS ∧
    (switchTheme s themeId).bodyClasses = s.bodyClasses ∧
    (switchTheme s themeId).hookLog = s.hookLog ∧
    (switchTheme s themeId).warnLog = s.warnLog ++
      ["Theme not found, using default: " ++ themeId] := by
  have hload := loadTheme_unknown_eq
    { s with localStorageTheme := some themeId } themeId hmiss
  cases hp : s.currentPage with
  | none =>
    have hsw : switchTheme s themeId = { s with
        localStorageTheme := some themeId,
        warnLog := s.warnLog ++
          ["Theme not found, using default: " ++ themeId] } := by
      simp only [switchTheme, hkey, if_true]
      rw [hload]
      simp [hp]
    rw [hsw]
    exact ⟨rfl, rfl, rfl, rfl, rfl, rfl, rfl, rfl⟩
  | some p =>
    have hshape := render_pipeline_shape { s with
      localStorageTheme := some themeId,
      warnLog := s.warnLog ++
        ["Theme not found, using default: " ++ themeId] }
    obtain ⟨fi, ri, hpipe⟩ := hshape p
    have hsw : switchTheme s themeId = { s with
        localStorageTheme := some themeId,
        warnLog := s.warnLog ++
          ["Theme not found, using default: " ++ themeId],
        facetItems := fi, resultItems := ri } := by
      simp only [switchTheme, hkey, if_true]
      rw [hload]
      simp only [hp] at hpipe ⊢
      exact hpipe
    rw [hsw]
    exact ⟨rfl, rfl, rfl, rfl, rfl, rfl, rfl, rfl⟩

/-- Witness for C10: switching the running instance to the unregistered
id zen stores zen as the startup default while theme a stays active. -/
theorem switchTheme_persists_unknown_id_witness :
    (switchTheme stateA "zen").localStorageTheme = some "zen" ∧
    (switchTheme stateA "zen").currentTheme = some themeA ∧
    (switchTheme stateA "zen").hookLog = [HookEvent.initHook "a"] := by
  have h := switchTheme_persists_unknown_id stateA "zen" rfl rfl
  exact ⟨h.1, h.2.1, h.2.2.2.2.2.2.1⟩

/-- C5 (amended). For a registered theme id, switchTheme fully
deactivates the active theme before activating the new one: the
deactivation hook runs strictly before the activation hook, the old
marker class is removed and the new one added, the old stylesheet links
are removed and the new theme link attached; with a held result page the
result cards are cleared and re-rendered so they carry the new theme
markup, but the freshly rendered facet blocks are appended to the facet
container without clearing the previously rendered ones, which keep the
old theme markup. -/
theorem switchTheme_semantics (s : UIState) (a b : Theme)
    (aid bid css : String) (p : Page)
    (hca : s.currentTheme = some a) (hcid : s.currentThemeId = some aid)
    (hreg : lookupKey s.registry bid = some b) (hcss : b.cssFile = some css)
    (had : a.hasDestroy = true) (hbi : b.hasInit = true)
    (hpage : s.currentPage = some p) (hfc : s.facetContainer = true)
    (hlinks : s.headLinks = s.loadedThemeCSS) (hne : aid ≠ bid) :
    (switchTheme s bid).currentTheme = some b ∧
    (switchTheme s bid).currentThemeId = some bid ∧
    (switchTheme s bid).hookLog =
      s.hookLog ++ [HookEvent.destroyHook aid, HookEvent.initHook bid] ∧
    (switchTheme s bid).bodyClasses =
      addClass (removeClass s.bodyClasses ("theme-" ++ aid))
        ("theme-" ++ bid) ∧
    ("theme-" ++ aid) ∉ (switchTheme s bid).bodyClasses ∧
    (switchTheme s bid).headLinks = [(bid, css)] ∧
    (switchTheme s bid).loadedThemeCSS = [(bid, css)] ∧
    (switchTheme s bid).resultItems =
      (if p.results.isEmpty then []
       else p.results.map (fun r =>
         ⟨if b.hasRenderResultCard then some bid else none, p.pid, r⟩)) ∧
    (switchTheme s bid).facetItems =
      (if p.facets.isEmpty then s.facetItems
       else s.facetItems ++ p.facets.map (fun f =>
         ⟨if b.hasRenderFacet then some bid else none, p.pid, f.name⟩)) := by
  have hnotmem : ("theme-" ++ aid) ∉
      addClass (removeClass s.bodyClasses ("theme-" ++ aid))
        ("theme-" ++ bid) :=
    not_mem_addClass (not_mem_removeClass _ _)
      (fun hcontr => hne (strAppendLeftCancel hcontr))
  by_cases hk : s.themeLocalStorageKey.isSome = true
  case pos =>
    have hcp : (loadTheme { s with localStorageTheme := some bid }
        bid).currentPage = some p := by
      rw [loadTheme_switch_semantics { s with localStorageTheme := some bid }
        a b aid bid css hca hcid hreg hcss had hbi hlinks]
      exact hpage
    have hfin := loadTheme_then_render
      { s with localStorageTheme := some bid } a b aid bid css p
      hca hcid hreg hcss had hbi hfc hlinks
    have hsw : switchTheme s bid = renderSearchResults (renderAllFacets
        (loadTheme { s with localStorageTheme := some bid } bid) p) p := by
      simp [switchTheme, hk, hcp]
    rw [hsw, hfin]
    exact ⟨rfl, rfl, rfl, rfl, hnotmem, rfl, rfl, rfl, rfl⟩
  case neg =>
    have hkf : s.themeLocalStorageKey.isSome = false := by simpa using hk
    have hcp : (loadTheme s bid).currentPage = some p := by
      rw [loadTheme_switch_semantics s a b aid bid css hca hcid hreg hcss
        had hbi hlinks]
      exact hpage
    have hfin := loadTheme_then_render s a b aid bid css p
      hca hcid hreg hcss had hbi hfc hlinks
    have hsw : switchTheme s bid = renderSearchResults (renderAllFacets
        (loadTheme s bid) p) p := by
      simp [switchTheme, hkf, hcp]
    rw [hsw, hfin]
    exact ⟨rfl, rfl, rfl, rfl, hnotmem, rfl, rfl, rfl, rfl⟩

/-- Witness for C5: switching the running instance from theme a to theme
b runs the destroy hook before the init hook and re-renders the result
card with the new theme markup. -/
theorem switchTheme_semantics_witness :
    (switchTheme stateA "b").hookLog =
      [HookEvent.initHook "a", HookEvent.destroyHook "a",
        HookEvent.initHook "b"] ∧
    (switchTheme stateA "b").resultItems = [⟨some "b", 1, 7⟩] := by
  have h := switchTheme_semantics stateA themeA themeB "a" "b"
    "themes/b.css" pageOne rfl rfl rfl rfl rfl rfl rfl rfl rfl (by decide)
  refine ⟨?_, ?_⟩
  · rw [h.2.2.1]; rfl
  · rw [h.2.2.2.2.2.2.2.1]; rfl

/-- C5 counterexample: after switching the running instance from theme a
to theme b with a held page, the facet container still holds the facet
block rendered by theme a next to the new theme b block, so the facet
container does not show only the newly active theme markup. -/
theorem switchTheme_claim_counterexample :
    (switchTheme stateA "b").facetItems =
      [⟨some "a", 1, "mime_type"⟩, ⟨some "b", 1, "mime_type"⟩] ∧
    (⟨some "a", 1, "mime_type"⟩ : RenderedFacet) ∈
      (switchTheme stateA "b").facetItems ∧
    (switchTheme stateA "b").facetItems ≠
      [⟨some "b", 1, "mime_type"⟩] := by
  have h : (switchTheme stateA "b").facetItems =
      [⟨some "a", 1, "mime_type"⟩, ⟨some "b", 1, "mime_type"⟩] := rfl
  exact ⟨h, by rw [h]; simp, by rw [h]; simp⟩

/-- C6 (amended). Re-activating the already active theme id leaves
exactly one stylesheet reference for it in the document and exactly one
marker class on the body — no duplicates — but it is not free of hook
side effects: the full unload and reload cycle runs, appending one more
deactivation hook invocation and one more activation hook invocation. -/
theorem loadTheme_reactivate_semantics (s : UIState) (a : Theme)
    (aid css : String)
    (hca : s.currentTheme = some a) (hcid : s.currentThemeId = some aid)
    (hreg : lookupKey s.registry aid = some a) (hcss : a.cssFile = some css)
    (had : a.hasDestroy = true) (hai : a.hasInit = true)
    (hlinks : s.headLinks = s.loadedThemeCSS) :
    (loadTheme s aid).headLinks = [(aid, css)] ∧
    ((loadTheme s aid).headLinks.countP (fun l => l.1 == aid)) = 1 ∧
    (loadTheme s aid).hookLog = s.hookLog ++
      [HookEvent.destroyHook aid, HookEvent.initHook aid] ∧
    (loadTheme s aid).bodyClasses =
      addClass (removeClass s.bodyClasses ("theme-" ++ aid))
        ("theme-" ++ aid) ∧
    ((loadTheme s aid).bodyClasses.count ("theme-" ++ aid)) = 1 := by
  rw [loadTheme_switch_semantics s a a aid aid css hca hcid hreg hcss had
    hai hlinks]
  exact ⟨rfl, by simp, rfl, rfl, count_addClass_removeClass _ _⟩

/-- Witness for C6: re-activating theme a on the running instance keeps
one stylesheet link and one marker class. -/
theorem loadTheme_reactivate_semantics_witness :
    (loadTheme stateA "a").headLinks = [("a", "themes/a.css")] ∧
    ((loadTheme stateA "a").bodyClasses.count ("theme-" ++ "a")) = 1 := by
  have h := loadTheme_reactivate_semantics stateA themeA "a" "themes/a.css"
    rfl rfl rfl rfl rfl rfl rfl
  exact ⟨h.1, h.2.2.2.2⟩

/-- C6 counterexample: re-activating the already active theme a runs the
destroy hook and then the init hook again, so the activation hook has run
twice afterwards, while the stylesheet link is indeed not duplicated. -/
theorem loadTheme_reactivate_claim_counterexample :
    (loadTheme stateA "a").hookLog =
      [HookEvent.initHook "a", HookEvent.destroyHook "a",
        HookEvent.initHook "a"] ∧
    ((loadTheme stateA "a").hookLog.count (HookEvent.initHook "a")) = 2 ∧
    (loadTheme stateA "a").headLinks = [("a", "themes/a.css")] := by
  refine ⟨rfl, ?_, rfl⟩
  have h : (loadTheme stateA "a").hookLog =
      [HookEvent.initHook "a", HookEvent.destroyHook "a",
        HookEvent.initHook "a"] := rfl
  rw [h]
  rfl

/-- C9 (amended). The orchestrator holds a single current page
reference; the startup search stores the received page in it before the
renders read that page, and every action renders the result container
wholesale from the page it received, never merging with the previous
page; but only the startup search writes the held reference — the
filter, pagination and reset actions leave it at its previous value
while rendering from the newly received page. -/
theorem currentPage_replacement (s : UIState) (p : Page) :
    (startupSearchAction s (some p)).currentPage = some p ∧
    (startupSearchAction s (some p)).resultItems =
      (if p.results.isEmpty then []
       else p.results.map (fun r => ⟨resultTagOf s, p.pid, r⟩)) ∧
    (filterRenderAction s p).currentPage = s.currentPage ∧
    (filterRenderAction s p).resultItems =
      (if p.results.isEmpty then []
       else p.results.map (fun r => ⟨resultTagOf s, p.pid, r⟩)) ∧
    (paginationAction s p).currentPage = s.currentPage ∧
    (paginationAction s p).resultItems =
      (if p.results.isEmpty then []
       else p.results.map (fun r => ⟨resultTagOf s, p.pid, r⟩)) ∧
    (resetFacetsAction s p).currentPage = s.currentPage ∧
    (resetFacetsAction s p).resultItems =
      (if p.results.isEmpty then []
       else p.results.map (fun r => ⟨resultTagOf s, p.pid, r⟩)) := by
  obtain ⟨fc1, fi1, wl1, hinit1⟩ :=
    initFacetContainer_shape { s with currentPage := some p }
  obtain ⟨fc2, fi2, wl2, hinit2⟩ := initFacetContainer_shape s
  have hstart : startupSearchAction s (some p) =
      renderSearchResults (renderAllFacets
        (initFacetContainer { s with currentPage := some p }) p) p := rfl
  have hpipe1 := pipeline_resultItems { s with
    currentPage := some p, facetContainer := fc1,
    facetItems := fi1, warnLog := wl1 } p
  have hpipe2 := pipeline_resultItems { s with
    facetContainer := fc2, facetItems := fi2, warnLog := wl2 } p
  refine ⟨?_, ?_, ?_, ?_, ?_, ?_, ?_, ?_⟩
  · rw [hstart, hinit1]
    exact hpipe1.2
  · rw [hstart, hinit1]
    simpa [resultTagOf] using hpipe1.1
  · show (renderSearchResults (renderAllFacets (initFacetContainer s) p)
      p).currentPage = s.currentPage
    rw [hinit2]
    exact hpipe2.2
  · show (renderSearchResults (renderAllFacets (initFacetContainer s) p)
      p).resultItems = _
    rw [hinit2]
    simpa [resultTagOf] using hpipe2.1
  · obtain ⟨ri, hri⟩ := renderSearchResults_resultItems_only s p
    show (renderSearchResults s p).currentPage = s.currentPage
    rw [hri]
  · show (renderSearchResults s p).resultItems = _
    by_cases hr : p.results.isEmpty <;> simp [renderSearchResults, hr]
  · show (renderSearchResults (renderAllFacets (initFacetContainer s) p)
      p).currentPage = s.currentPage
    rw [hinit2]
    exact hpipe2.2
  · show (renderSearchResults (renderAllFacets (initFacetContainer s) p)
      p).resultItems = _
    rw [hinit2]
    simpa [resultTagOf] using hpipe2.1

/-- C9 counterexample: after a successful filter action that received
page two, the result container is rendered from page two but the held
current page reference still points at page one, so the action did not
replace the held reference. -/
theorem currentPage_claim_counterexample :
    (filterRenderAction stateA pageTwo).currentPage = some pageOne ∧
    (filterRenderAction stateA pageTwo).resultItems =
      [⟨some "a", 2, 9⟩] ∧
    (some pageOne : Option Page) ≠ some pageTwo := by
  refine ⟨rfl, rfl, by decide⟩

end SmartSearch

